import Mathlib

/-!
A shallow embedding of the process-memory debugging engine
(`process_simulator.py`, `memory_editor.py`, `process_bridge.py`) of the
xdbg64ai repository, together with proofs about the claims of its
specification.

Modelling conventions:
* Python `dict`s keyed by strings are modelled as insertion-ordered
  association lists (`List (String × _)`); `dictGet`/`dictSet` mirror
  `d.get(k)` / `d[k] = v` (assignment replaces the first matching key in
  place, otherwise appends).
* Python values stored in simulated memory are modelled by `PyVal`
  (unbounded integers and strings; the float paths of the source are not
  exercised by any claim and are left out of the value model).
* A Python exception (ValueError from `int(...)`, TypeError from `str + int`,
  IndexError from operand unpacking/indexing) is modelled as `none` in an
  `Option` result.
* Machine registers always hold Python ints in the source (the register
  dict is created with integer values and every assignment stores an int,
  except a `ret` whose stack slot holds a string; that case is modelled as
  a runtime error, matching the `TypeError` Python raises at the very next
  `hex(rip)` call on such a register file).
-/

namespace Xdbg

/-- First-match lookup in an association list: models Python `d.get(k)`. -/
def dictGet {α : Type} : List (String × α) → String → Option α
  | [], _ => none
  | (k', v) :: rest, k => if k' = k then some v else dictGet rest k

/-- In-place update/append: models Python `d[k] = v` on a `dict`
(replaces the first matching key, keeping insertion order, else appends). -/
def dictSet {α : Type} : List (String × α) → String → α → List (String × α)
  | [], k, v => [(k, v)]
  | (k', v') :: rest, k, v =>
      if k' = k then (k, v) :: rest else (k', v') :: dictSet rest k v

/-- The value of a hexadecimal digit character, `none` for non-digits.
Models the per-character acceptance of Python `int(s, 16)`. -/
def hexDigitVal (c : Char) : Option Nat :=
  if '0' ≤ c ∧ c ≤ '9' then some (c.toNat - 48)
  else if 'a' ≤ c ∧ c ≤ 'f' then some (c.toNat - 87)
  else if 'A' ≤ c ∧ c ≤ 'F' then some (c.toNat - 55)
  else none

/-- Accumulating hexadecimal parse of a digit list. -/
def parseHexList : List Char → Nat → Option Nat
  | [], acc => some acc
  | c :: cs, acc =>
      match hexDigitVal c with
      | some d => parseHexList cs (acc * 16 + d)
      | none => none

/-- The character Python uses for hex digit `n` (`0`–`9`, `a`–`f`). -/
def hexDigitChar (n : Nat) : Char :=
  if n < 10 then Char.ofNat (48 + n) else Char.ofNat (87 + n)

/-- Digits of `n` in base 16, most significant first, `[]` for `0`.
Structural fuel recursion (`fuel ≥ n` suffices) so that the kernel can
evaluate it. -/
def natHexAux : Nat → Nat → List Char
  | 0, _ => []
  | fuel + 1, n =>
      if n = 0 then [] else natHexAux fuel (n / 16) ++ [hexDigitChar (n % 16)]

/-- Hexadecimal digit string of a natural number, as Python `hex` prints it
(without the `0x` prefix). -/
def natHex (n : Nat) : String :=
  if n = 0 then "0" else String.mk (natHexAux n n)

/-- Python `hex(i)`: `0x…` in lowercase, with a leading `-` for negatives. -/
def pyHex (i : Int) : String :=
  if i < 0 then "-0x" ++ natHex i.natAbs else "0x" ++ natHex i.toNat

/-- Hex parse after the optional sign: optional `0x`/`0X` prefix, then a
non-empty run of hex digits. -/
def parseHexCore (cs : List Char) : Option Nat :=
  match cs with
  | [] => none
  | [c] => parseHexList [c] 0
  | c0 :: c1 :: rest =>
      if c0 = '0' ∧ (c1 = 'x' ∨ c1 = 'X') then
        if rest = [] then none else parseHexList rest 0
      else parseHexList (c0 :: c1 :: rest) 0

/-- Models Python `int(s, 16)` (and `int(s, 0)` on `0x`-prefixed input):
optional sign, optional `0x` prefix, hex digits. -/
def pyIntBase16 (s : String) : Option Int :=
  match s.data with
  | [] => none
  | c :: rest =>
      if c = '-' then (parseHexCore rest).map (fun n => -(n : Int))
      else if c = '+' then (parseHexCore rest).map (fun n => (n : Int))
      else (parseHexCore (c :: rest)).map (fun n => (n : Int))

/-- Value of a decimal digit list (caller checks the digits). -/
def digitsVal (cs : List Char) : Nat :=
  cs.foldl (fun a c => a * 10 + (c.toNat - 48)) 0

/-- Models Python `int(s)`: optional sign, then decimal digits. -/
def pyIntDec (s : String) : Option Int :=
  match s.data with
  | [] => none
  | c :: rest =>
      if c = '-' then
        if rest ≠ [] ∧ rest.all Char.isDigit then some (-(digitsVal rest : Int)) else none
      else if c = '+' then
        if rest ≠ [] ∧ rest.all Char.isDigit then some (digitsVal rest : Int) else none
      else
        if (c :: rest).all Char.isDigit then some (digitsVal (c :: rest) : Int) else none

/-- Models Python `s.isdigit()` (restricted to ASCII digits). -/
def pyIsDigit (s : String) : Bool :=
  s.data ≠ [] && s.data.all Char.isDigit

/-- List-level string prefix test. -/
def listStartsWith : List Char → List Char → Bool
  | _, [] => true
  | [], _ :: _ => false
  | c :: cs, p :: ps => c = p && listStartsWith cs ps

/-- Models Python `s.startswith(pre)`. -/
def pyStartsWith (s pre : String) : Bool :=
  listStartsWith s.data pre.data

/-- Models Python `s[1:]`. -/
def pyTail (s : String) : String :=
  String.mk (s.data.drop 1)

/-- Models Python `s.split()` (split on whitespace runs, no empty parts). -/
def pySplit (s : String) : List String :=
  (s.split Char.isWhitespace).filter (fun t => t ≠ "")

/-- Python list slice `l[:k]` for an integer `k` (negative `k` counts from
the end, as in Python). -/
def pyTake {α : Type} (l : List α) (k : Int) : List α :=
  if k < 0 then l.take ((l.length : Int) + k).toNat else l.take k.toNat

/-- Python list indexing `l[i]` (negative `i` counts from the end);
`none` models an `IndexError`. -/
def pyIndex {α : Type} (l : List α) (i : Int) : Option α :=
  if i < 0 then l.get? ((l.length : Int) + i).toNat
  else l.get? i.toNat

/-- A value stored in a simulated process's memory map (Python `Any`;
the claims only exercise ints and strings, see the header note). -/
inductive PyVal where
  | vint (n : Int)
  | vstr (s : String)
deriving DecidableEq, Repr

/-- Python `==` on memory values (`int == str` is `False`). -/
def pyEq : PyVal → PyVal → Bool
  | .vint a, .vint b => a = b
  | .vstr a, .vstr b => a = b
  | _, _ => false

/-- The CPU register dict of `SimulatedProcess.__init__`.  Its key set is
fixed for the life of the process (every assignment in the source is
guarded by `dst in process.registers` or targets one of these keys), so it
is modelled as a structure with one `Int` field per register. -/
structure Regs where
  rax : Int
  rbx : Int
  rcx : Int
  rdx : Int
  rsi : Int
  rdi : Int
  rbp : Int
  rsp : Int
  r8 : Int
  r9 : Int
  r10 : Int
  r11 : Int
  r12 : Int
  r13 : Int
  r14 : Int
  r15 : Int
  rip : Int
  rflags : Int
  cf : Int
  zf : Int
  sf : Int
  of : Int

/-- All registers zero, as in `SimulatedProcess.__init__`. -/
def Regs.init : Regs :=
  ⟨0, 0, 0, 0, 0, 0, 0, 0, 0, 0, 0, 0, 0, 0, 0, 0, 0, 0, 0, 0, 0, 0⟩

/-- Models `name in process.registers` (the key set is fixed, see `Regs`). -/
def isRegName (name : String) : Bool :=
  name = "rax" || name = "rbx" || name = "rcx" || name = "rdx" ||
  name = "rsi" || name = "rdi" || name = "rbp" || name = "rsp" ||
  name = "r8" || name = "r9" || name = "r10" || name = "r11" ||
  name = "r12" || name = "r13" || name = "r14" || name = "r15" ||
  name = "rip" || name = "rflags" ||
  name = "cf" || name = "zf" || name = "sf" || name = "of"

/-- Models `process.registers[name]`; `none` when `name` is not a register key. -/
def getReg (r : Regs) (name : String) : Option Int :=
  if name = "rax" then some r.rax else if name = "rbx" then some r.rbx
  else if name = "rcx" then some r.rcx else if name = "rdx" then some r.rdx
  else if name = "rsi" then some r.rsi else if name = "rdi" then some r.rdi
  else if name = "rbp" then some r.rbp else if name = "rsp" then some r.rsp
  else if name = "r8" then some r.r8 else if name = "r9" then some r.r9
  else if name = "r10" then some r.r10 else if name = "r11" then some r.r11
  else if name = "r12" then some r.r12 else if name = "r13" then some r.r13
  else if name = "r14" then some r.r14 else if name = "r15" then some r.r15
  else if name = "rip" then some r.rip else if name = "rflags" then some r.rflags
  else if name = "cf" then some r.cf else if name = "zf" then some r.zf
  else if name = "sf" then some r.sf else if name = "of" then some r.of
  else none

/-- Models `process.registers.get(name, 0)`. -/
def getRegD (r : Regs) (name : String) : Int :=
  (getReg r name).getD 0

/-- Models `process.registers[name] = v` (identity on non-register keys; all call
sites in the source are guarded by key membership). -/
def setReg (r : Regs) (name : String) (v : Int) : Regs :=
  if name = "rax" then { r with rax := v } else if name = "rbx" then { r with rbx := v }
  else if name = "rcx" then { r with rcx := v } else if name = "rdx" then { r with rdx := v }
  else if name = "rsi" then { r with rsi := v } else if name = "rdi" then { r with rdi := v }
  else if name = "rbp" then { r with rbp := v } else if name = "rsp" then { r with rsp := v }
  else if name = "r8" then { r with r8 := v } else if name = "r9" then { r with r9 := v }
  else if name = "r10" then { r with r10 := v } else if name = "r11" then { r with r11 := v }
  else if name = "r12" then { r with r12 := v } else if name = "r13" then { r with r13 := v }
  else if name = "r14" then { r with r14 := v } else if name = "r15" then { r with r15 := v }
  else if name = "rip" then { r with rip := v } else if name = "rflags" then { r with rflags := v }
  else if name = "cf" then { r with cf := v } else if name = "zf" then { r with zf := v }
  else if name = "sf" then { r with sf := v } else if name = "of" then { r with of := v }
  else r

/-- Model of `Instruction` from `process_simulator.py`. -/
structure Instruction where
  address : String
  opcode : String
  operands : List String
  bytes : String
deriving DecidableEq, Repr

/-- Model of `Breakpoint` from `process_simulator.py` (the constructor defaults are
`enabled = True`, `hit_count = 0`). -/
structure Breakpoint where
  address : String
  type : String
  condition : Option String
  enabled : Bool
  hit_count : Nat
deriving DecidableEq, Repr

/-- Model of `Symbol` from `process_simulator.py`. -/
structure Symbol where
  address : String
  name : String
  type : String
deriving DecidableEq, Repr

/-- Model of `SimulatedProcess` from `process_simulator.py`. -/
structure SimulatedProcess where
  name : String
  pid : String
  memory : List (String × PyVal)
  registers : Regs
  stack : List (String × PyVal)
  instructions : List (String × Instruction)
  breakpoints : List (String × Breakpoint)
  symbols : List (String × Symbol)
  symbols_by_name : List (String × Symbol)
  running : Bool
  step_mode : Bool
  memory_history : List (List (String × PyVal))
  history_position : Int

/-- Models `SimulatedProcess.__init__(name, pid, memory)`. -/
def SimulatedProcess.init (name pid : String) (memory : List (String × PyVal)) :
    SimulatedProcess where
  name := name
  pid := pid
  memory := memory
  registers := Regs.init
  stack := []
  instructions := []
  breakpoints := []
  symbols := []
  symbols_by_name := []
  running := false
  step_mode := false
  memory_history := []
  history_position := -1

/-- Models `SimulatedProcess.save_memory_state`. -/
def save_memory_state (p : SimulatedProcess) : SimulatedProcess :=
  let hist :=
    if p.history_position < (p.memory_history.length : Int) - 1 then
      pyTake p.memory_history (p.history_position + 1)
    else p.memory_history
  let hist := hist ++ [p.memory]
  let pos : Int := (hist.length : Int) - 1
  if hist.length > 50 then
    { p with memory_history := hist.drop 1, history_position := pos - 1 }
  else
    { p with memory_history := hist, history_position := pos }

/-- Models `SimulatedProcess.undo_memory_change` (`none` models the `IndexError`
that an out-of-range history position would raise; it never occurs on
states reachable through the simulator, see the history invariant). -/
def undo_memory_change (p : SimulatedProcess) : Option (Bool × SimulatedProcess) :=
  if p.history_position > 0 then
    (pyIndex p.memory_history (p.history_position - 1)).map fun m =>
      (true, { p with history_position := p.history_position - 1, memory := m })
  else some (false, p)

/-- Models `SimulatedProcess.redo_memory_change`. -/
def redo_memory_change (p : SimulatedProcess) : Option (Bool × SimulatedProcess) :=
  if p.history_position < (p.memory_history.length : Int) - 1 then
    (pyIndex p.memory_history (p.history_position + 1)).map fun m =>
      (true, { p with history_position := p.history_position + 1, memory := m })
  else some (false, p)

namespace InstructionType

def MOV : String := "mov"

def ADD : String := "add"

def SUB : String := "sub"

def JMP : String := "jmp"

def CMP : String := "cmp"

def JE : String := "je"

def CALL : String := "call"

def RET : String := "ret"

def NOP : String := "nop"

end InstructionType

/-- Length in bytes the simulator assigns to an instruction:
`len(instr.bytes.split()) // 2`. -/
def instr_length (instr : Instruction) : Int :=
  ((pySplit instr.bytes).length / 2 : Nat)

/-- Models `dst, src = instr.operands`; `none` models the `ValueError` raised when
the operand list does not have exactly two entries. -/
def two (ops : List String) : Option (String × String) :=
  match ops with
  | [a, b] => some (a, b)
  | _ => none

/-- The shared source-value resolution of `mov`/`add`/`sub`:
decimal immediate, hex immediate (`int(src, 16)` may raise), else
`registers.get(src, 0)`. -/
def resolveSrc (regs : Regs) (src : String) : Option Int :=
  if pyIsDigit src || (pyStartsWith src "-" && pyIsDigit (pyTail src)) then
    some (if pyStartsWith src "-" then -(digitsVal (pyTail src).data : Int)
          else (digitsVal src.data : Int))
  else if pyStartsWith src "0x" then pyIntBase16 src
  else some (getRegD regs src)

/-- Operand resolution of `cmp`: register, else `int(x, 0)` on `0x`
operands, else `int(x)`. -/
def cmpVal (regs : Regs) (s : String) : Option Int :=
  if isRegName s then some (getRegD regs s)
  else if pyStartsWith s "0x" then pyIntBase16 s
  else pyIntDec s

/-- Jump-target resolution of `jmp`/`je`/`call`: absolute hex address, else
symbol-name lookup (`int(symbol.address, 16)`), else leave `next_rip` at
`rip` (no jump). -/
def resolveTarget (symbols_by_name : List (String × Symbol)) (rip : Int) (t : String) :
    Option Int :=
  if pyStartsWith t "0x" then pyIntBase16 t
  else
    match dictGet symbols_by_name t with
    | some symbol => pyIntBase16 symbol.address
    | none => some rip

/-- Models `ProcessSimulator._execute_instruction`.  Returns the next instruction
address together with the mutated process; `none` models a raised Python
exception (see the header note). -/
def execute_instruction (p : SimulatedProcess) (address : String) :
    Option (Int × SimulatedProcess) :=
  match dictGet p.instructions address with
  | none => (pyIntBase16 address).map (fun a => (a + 1, p))
  | some instr =>
    match pyIntBase16 address with
    | none => none
    | some rip =>
      if instr.opcode = InstructionType.MOV then
        match two instr.operands with
        | none => none
        | some (dst, src) =>
          match resolveSrc p.registers src with
          | none => none
          | some value =>
            if isRegName dst then
              some (rip + instr_length instr,
                { p with registers := setReg p.registers dst value })
            else
              some (rip + instr_length instr,
                { p with memory := dictSet p.memory dst (PyVal.vint value) })
      else if instr.opcode = InstructionType.ADD then
        match two instr.operands with
        | none => none
        | some (dst, src) =>
          match resolveSrc p.registers src with
          | none => none
          | some value =>
            if isRegName dst then
              some (rip + instr_length instr,
                { p with registers := setReg p.registers dst (getRegD p.registers dst + value) })
            else
              match dictGet p.memory dst with
              | some (PyVal.vint n) =>
                  some (rip + instr_length instr,
                    { p with memory := dictSet p.memory dst (PyVal.vint (n + value)) })
              | some (PyVal.vstr _) => none
              | none => some (rip + instr_length instr, p)
      else if instr.opcode = InstructionType.SUB then
        match two instr.operands with
        | none => none
        | some (dst, src) =>
          match resolveSrc p.registers src with
          | none => none
          | some value =>
            if isRegName dst then
              some (rip + instr_length instr,
                { p with registers := setReg p.registers dst (getRegD p.registers dst - value) })
            else
              match dictGet p.memory dst with
              | some (PyVal.vint n) =>
                  some (rip + instr_length instr,
                    { p with memory := dictSet p.memory dst (PyVal.vint (n - value)) })
              | some (PyVal.vstr _) => none
              | none => some (rip + instr_length instr, p)
      else if instr.opcode = InstructionType.JMP then
        match instr.operands with
        | [] => none
        | t :: _ => (resolveTarget p.symbols_by_name rip t).map (fun a => (a, p))
      else if instr.opcode = InstructionType.CMP then
        match two instr.operands with
        | none => none
        | some (left, right) =>
          match cmpVal p.registers left with
          | none => none
          | some left_val =>
            match cmpVal p.registers right with
            | none => none
            | some right_val =>
              let r1 := setReg p.registers "zf" (if left_val = right_val then 1 else 0)
              let r2 := setReg r1 "sf" (if left_val < right_val then 1 else 0)
              some (rip + instr_length instr, { p with registers := r2 })
      else if instr.opcode = InstructionType.JE then
        if p.registers.zf = 1 then
          match instr.operands with
          | [] => none
          | t :: _ => (resolveTarget p.symbols_by_name rip t).map (fun a => (a, p))
        else some (rip + instr_length instr, p)
      else if instr.opcode = InstructionType.CALL then
        match instr.operands with
        | [] => none
        | t :: _ =>
          let ret_addr := rip + instr_length instr
          let rsp := p.registers.rsp - 8
          let p1 := { p with registers := setReg p.registers "rsp" rsp,
                             memory := dictSet p.memory (pyHex rsp) (PyVal.vint ret_addr) }
          (resolveTarget p1.symbols_by_name rip t).map (fun a => (a, p1))
      else if instr.opcode = InstructionType.RET then
        let rsp := p.registers.rsp
        match dictGet p.memory (pyHex rsp) with
        | none => some (rip, p)
        | some (PyVal.vint n) =>
            some (n, { p with registers := setReg p.registers "rsp" (rsp + 8) })
        | some (PyVal.vstr _) => none
      else
        some (rip + instr_length instr, p)

/-- Models `ProcessSimulator.step_instruction`, at the level of one process
(the pid dispatch of the simulator method is a `dictGet` in front). -/
def step_instruction (p : SimulatedProcess) : Option (Bool × SimulatedProcess) :=
  (execute_instruction p (pyHex p.registers.rip)).map fun r =>
    (true, { r.2 with registers := setReg r.2.registers "rip" r.1 })

/-- The `while process.running and steps < max_steps` loop of
`ProcessSimulator.run_until_breakpoint`, with `fuel = max_steps - steps`.
The second component counts the instructions actually executed; the first
is the returned boolean and final process (`none` models a raised
exception). -/
def runLoop : SimulatedProcess → Nat → Option (Bool × SimulatedProcess) × Nat
  | p, 0 => (some (true, { p with running := false }), 0)
  | p, fuel + 1 =>
    if p.running then
      let rip_hex := pyHex p.registers.rip
      let cont : Option (Bool × SimulatedProcess) × Nat :=
        match execute_instruction p rip_hex with
        | none => (none, 0)
        | some r =>
          let p' := { r.2 with registers := setReg r.2.registers "rip" r.1 }
          let res := runLoop p' fuel
          (res.1, res.2 + 1)
      match dictGet p.breakpoints rip_hex with
      | some bp =>
        if bp.enabled then
          if bp.type = "execution" then
            (some (true,
              { p with
                breakpoints := dictSet p.breakpoints rip_hex
                  { bp with hit_count := bp.hit_count + 1 },
                running := false }), 0)
          else cont
        else cont
      | none => cont
    else (some (true, { p with running := false }), 0)

/-- Model of `ProcessSimulator` (the `current_process` attribute is initialized and
never written elsewhere in the source). -/
structure ProcessSimulator where
  processes : List (String × SimulatedProcess)
  current_process : Option String

/-- Models `ProcessSimulator.__init__`. -/
def ProcessSimulator.init : ProcessSimulator :=
  ⟨[], none⟩

/-- Models `ProcessSimulator.read_memory` (`none` covers both a missing process
and a missing address, exactly as the Python `None` return does). -/
def read_memory (sim : ProcessSimulator) (pid address : String) : Option PyVal :=
  match dictGet sim.processes pid with
  | none => none
  | some p => dictGet p.memory address

/-- Models `ProcessSimulator._check_memory_breakpoints`. -/
def check_memory_breakpoints (p : SimulatedProcess) (address access_type : String) :
    SimulatedProcess :=
  match dictGet p.breakpoints address with
  | some bp =>
      if bp.enabled ∧ (bp.type = access_type ∨ bp.type = "access") then
        { p with
          breakpoints := dictSet p.breakpoints address { bp with hit_count := bp.hit_count + 1 },
          running := false }
      else p
  | none => p

/-- The per-process body of `ProcessSimulator.write_memory`: save state,
check write breakpoints, store the value. -/
def write_memory_process (p : SimulatedProcess) (address : String) (value : PyVal) :
    SimulatedProcess :=
  let p := save_memory_state p
  let p := check_memory_breakpoints p address "write"
  { p with memory := dictSet p.memory address value }

/-- Models `ProcessSimulator.write_memory`. -/
def write_memory (sim : ProcessSimulator) (pid address : String) (value : PyVal) :
    Bool × ProcessSimulator :=
  match dictGet sim.processes pid with
  | none => (false, sim)
  | some p =>
    (true, { sim with processes := dictSet sim.processes pid (write_memory_process p address value) })

/-- Models `ProcessSimulator.undo_memory_edit`. -/
def undo_memory_edit (sim : ProcessSimulator) (pid : String) :
    Option (Bool × ProcessSimulator) :=
  match dictGet sim.processes pid with
  | none => some (false, sim)
  | some p =>
    (undo_memory_change p).map fun r =>
      (r.1, { sim with processes := dictSet sim.processes pid r.2 })

/-- Models `ProcessSimulator.redo_memory_edit`. -/
def redo_memory_edit (sim : ProcessSimulator) (pid : String) :
    Option (Bool × ProcessSimulator) :=
  match dictGet sim.processes pid with
  | none => some (false, sim)
  | some p =>
    (redo_memory_change p).map fun r =>
      (r.1, { sim with processes := dictSet sim.processes pid r.2 })

/-- Models `ProcessSimulator.run_until_breakpoint`.  The extra `Nat` component
counts the instructions executed (instrumentation only; the source keeps
the same count in its local `steps` variable). -/
def run_until_breakpoint (sim : ProcessSimulator) (pid : String) (max_steps : Nat) :
    Option (Bool × ProcessSimulator) × Nat :=
  match dictGet sim.processes pid with
  | none => (some (false, sim), 0)
  | some p =>
    let r := runLoop { p with running := true } max_steps
    match r.1 with
    | none => (none, r.2)
    | some br =>
        (some (br.1, { sim with processes := dictSet sim.processes pid br.2 }), r.2)

/-- Models `ProcessSimulator._generate_sample_code`. -/
def generate_sample_code (process : SimulatedProcess) : SimulatedProcess :=
  let functions : List (String × Int) :=
    [("main", 0x400500), ("calculate", 0x400600),
     ("print_result", 0x400700), ("handle_error", 0x400800)]
  let process := functions.foldl (fun p fn =>
    let address := pyHex fn.2
    let symbol : Symbol := ⟨address, fn.1, "function"⟩
    { p with symbols := dictSet p.symbols address symbol,
             symbols_by_name := dictSet p.symbols_by_name fn.1 symbol }) process
  let variableDefs : List (String × Int × PyVal) :=
    [("counter", 0x601000, .vint 0), ("result", 0x601008, .vint 0),
     ("message", 0x601010, .vstr "Hello, Debugger!")]
  let process := variableDefs.foldl (fun p vr =>
    let address := pyHex vr.2.1
    let symbol : Symbol := ⟨address, vr.1, "variable"⟩
    { p with symbols := dictSet p.symbols address symbol,
             symbols_by_name := dictSet p.symbols_by_name vr.1 symbol,
             memory := dictSet p.memory address vr.2.2 }) process
  let main_addr : Int := 0x400500
  let instrs : List (Int × String × List String × String) :=
    [(main_addr, InstructionType.MOV, ["rax", "0"], "48 c7 c0 00 00 00 00"),
     (main_addr + 7, InstructionType.MOV, ["rbx", "10"], "48 c7 c3 0a 00 00 00"),
     (main_addr + 14, InstructionType.CALL, [pyHex 0x400600], "e8 e7 00 00 00"),
     (main_addr + 19, InstructionType.CMP, ["rax", "0"], "48 83 f8 00"),
     (main_addr + 23, InstructionType.JE, [pyHex 0x400800], "0f 84 d7 02 00 00"),
     (main_addr + 29, InstructionType.CALL, [pyHex 0x400700], "e8 d2 01 00 00"),
     (main_addr + 34, InstructionType.RET, [], "c3")]
  let process := instrs.foldl (fun p ins =>
    let address := pyHex ins.1
    { p with instructions :=
        dictSet p.instructions address ⟨address, ins.2.1, ins.2.2.1, ins.2.2.2⟩ }) process
  { process with registers := { process.registers with rip := main_addr } }

/-- The process built by `ProcessSimulator.create_process`:
`__init__`, then `_generate_sample_code`, then the initial
`save_memory_state`. -/
def created_process (name pid : String) (initial_memory : List (String × PyVal)) :
    SimulatedProcess :=
  save_memory_state (generate_sample_code (SimulatedProcess.init name pid initial_memory))

/-- Models `ProcessSimulator.create_process`.  The source draws `pid` from
`uuid.uuid4()` and, when no initial memory is supplied, seeds random
values; both are modelled as explicit arguments, so quantifying over them
covers every outcome of that nondeterminism. -/
def create_process (sim : ProcessSimulator) (name pid : String)
    (initial_memory : List (String × PyVal)) : String × ProcessSimulator :=
  let process := created_process name pid initial_memory
  (pid, { sim with processes := dictSet sim.processes pid process })

/-- The simulated-process states reachable through the simulator by
creating a process and then performing any sequence of memory writes,
undos and redos (the operation vocabulary of the history-invariant
claim). -/
inductive Reachable : SimulatedProcess → Prop
  | created (name pid : String) (initial_memory : List (String × PyVal)) :
      Reachable (created_process name pid initial_memory)
  | write (p : SimulatedProcess) (address : String) (value : PyVal) :
      Reachable p → Reachable (write_memory_process p address value)
  | undo (p : SimulatedProcess) (b : Bool) (p' : SimulatedProcess) :
      Reachable p → undo_memory_change p = some (b, p') → Reachable p'
  | redo (p : SimulatedProcess) (b : Bool) (p' : SimulatedProcess) :
      Reachable p → redo_memory_change p = some (b, p') → Reachable p'

/-- Python `str(value)` on a memory value. -/
def pyStr (v : PyVal) : String :=
  match v with
  | .vint n => toString n
  | .vstr s => s

/-- The value-conversion block of `MemoryEditor.write_process_memory`
(`none` models `return False`; the `float` branch is outside the `PyVal`
value model and is not exercised by any claim). -/
def convert_write_value (value : PyVal) (data_type : String) : Option PyVal :=
  if data_type = "int" then
    match value with
    | .vstr s => if pyStartsWith s "0x" then (pyIntBase16 s).map .vint
                 else (pyIntDec s).map .vint
    | .vint n => some (.vint n)
  else if data_type = "float" then none
  else if data_type = "string" then some (.vstr (pyStr value))
  else if data_type = "bytes" then
    match value with
    | .vstr s => if pyStartsWith s "0x" then (pyIntBase16 s).map .vint
                 else (pyIntBase16 (String.mk (s.data.filter fun c => ¬ c.isWhitespace))).map .vint
    | .vint n => some (.vint n)
  else none

/-- Models `MemoryEditor.write_process_memory` (the editor's `attach_to_process`
merely checks that the pid exists in the simulator table and records it;
the check is inlined here). -/
def write_process_memory (sim : ProcessSimulator) (process_id address : String)
    (value : PyVal) (data_type : String) : Bool × ProcessSimulator :=
  if (dictGet sim.processes process_id).isNone then (false, sim)
  else
    match convert_write_value value data_type with
    | none => (false, sim)
    | some v => write_memory sim process_id address v

/-- The value-conversion block of `MemoryEditor.scan_memory` (`float` as in
`convert_write_value`). -/
def convert_scan_value (value : PyVal) (data_type : String) : Option PyVal :=
  if data_type = "int" then
    match value with
    | .vstr s => if pyStartsWith s "0x" then (pyIntBase16 s).map .vint
                 else (pyIntDec s).map .vint
    | .vint n => some (.vint n)
  else if data_type = "float" then none
  else if data_type = "string" then some (.vstr (pyStr value))
  else none

/-- Models `MemoryEditor.scan_memory`: linear scan of the memory map for exact
`==` matches, in insertion order. -/
def scan_memory (sim : ProcessSimulator) (process_id : String) (value : PyVal)
    (data_type : String) : List String :=
  match dictGet sim.processes process_id with
  | none => []
  | some p =>
    match convert_scan_value value data_type with
    | none => []
    | some search_value =>
        p.memory.filterMap fun kv => if pyEq kv.2 search_value then some kv.1 else none

namespace ProcessType

def SIMULATED : String := "simulated"

def REAL : String := "real"

def ANDROID : String := "android"

end ProcessType

/-- Model of `ProcessBridge` from `process_bridge.py`.  The real-process connector is
modelled abstractly: `has_real_connector` folds together
`self.has_real_connector` and `self.real_connector is not None` (the
source always sets them together), and `real_attached` is the connector's
`attached_pid`. -/
structure ProcessBridge where
  process_simulator : ProcessSimulator
  has_real_connector : Bool
  real_attached : Option Int
  real_pid_map : List (String × Int)
  current_type : Option String
  current_id : Option String

/-- Python truthiness of an optional string (`None` and `""` are falsy). -/
def pyTruthyStr (s : Option String) : Bool :=
  match s with
  | none => false
  | some s => s ≠ ""

/-- The connector-level `detach_from_process()` call made inside
`ProcessBridge.attach_to_process` (its boolean result is ignored there;
the ptrace detach itself is modelled as succeeding). -/
def connector_detach (br : ProcessBridge) : ProcessBridge :=
  match br.real_attached with
  | none => br
  | some _ => { br with real_attached := none }

/-- Models `ProcessBridge.attach_to_process`.  `realOk pid` abstracts whether the
OS-level `real_connector.attach_to_process(pid)` call succeeds (process
exists and ptrace is permitted); an exception anywhere in the `try` block
is modelled by the same `False` return the `except` clause produces. -/
def attach_to_process (br : ProcessBridge) (process_id process_type : String)
    (realOk : Int → Bool) : Bool × ProcessBridge :=
  if process_type = ProcessType.SIMULATED then
    let br :=
      if br.current_type = some ProcessType.REAL ∧ pyTruthyStr br.current_id then
        if br.has_real_connector then connector_detach br else br
      else br
    let success := (dictGet br.process_simulator.processes process_id).isSome
    if success then
      (true, { br with current_type := some ProcessType.SIMULATED,
                       current_id := some process_id })
    else (false, br)
  else if process_type = ProcessType.REAL then
    if ¬ br.has_real_connector then (false, br)
    else
      match pyIntDec process_id with
      | none => (false, br)
      | some real_pid =>
        let br :=
          if pyTruthyStr br.current_type ∧ pyTruthyStr br.current_id then
            if br.current_type = some ProcessType.REAL ∧ br.has_real_connector then
              connector_detach br
            else br
          else br
        let success := realOk real_pid
        if success then
          (true, { br with current_type := some ProcessType.REAL,
                           current_id := some process_id,
                           real_pid_map := dictSet br.real_pid_map process_id real_pid,
                           real_attached := some real_pid })
        else (false, br)
  else (false, br)

/-- The process state produced by the breakpoint-hit branch of
`run_until_breakpoint`: the breakpoint's hit count incremented in place,
`running` cleared, everything else (registers, memory, code) untouched. -/
def fire_breakpoint (p : SimulatedProcess) (address : String) (bp : Breakpoint) :
    SimulatedProcess :=
  { p with
    breakpoints := dictSet p.breakpoints address { bp with hit_count := bp.hit_count + 1 },
    running := false }

/-! ### Concrete states used by witnesses and counterexamples -/

/-- A fresh simulator holding one process `"p1"` created with initial
memory `{"0x1000": 42}` (the concrete scenario of the spec). -/
def simScenario : ProcessSimulator :=
  (create_process ProcessSimulator.init "test" "p1" [("0x1000", PyVal.vint 42)]).2

/-- State of `simScenario` after `write_typed("0x1000", 100, "int")`. -/
def simScenarioW : ProcessSimulator :=
  (write_process_memory simScenario "p1" "0x1000" (PyVal.vint 100) "int").2

/-- State of `simScenarioW` after `undo()`. -/
def simScenarioU : ProcessSimulator :=
  ((undo_memory_edit simScenarioW "p1").getD (false, simScenarioW)).2

/-- State of `simScenarioU` after `redo()`. -/
def simScenarioR : ProcessSimulator :=
  ((redo_memory_edit simScenarioU "p1").getD (false, simScenarioU)).2

/-- An enabled execution breakpoint at address `"0x0"`. -/
def bpC3 : Breakpoint :=
  ⟨"0x0", "execution", none, true, 0⟩

/-- A process whose instruction pointer (0) carries `bpC3`. -/
def pC3 : SimulatedProcess :=
  { SimulatedProcess.init "c" "pc" [] with breakpoints := [("0x0", bpC3)] }

def simC3 : ProcessSimulator :=
  ⟨[("pc", pC3)], none⟩

/-- A process about to execute `add ["0x2000", "5"]` with no memory cell at
`"0x2000"`. -/
def pC7 : SimulatedProcess :=
  { SimulatedProcess.init "d" "pd" [] with
    instructions := [("0x0", ⟨"0x0", InstructionType.ADD, ["0x2000", "5"], "01 02"⟩)] }

/-- A process about to execute `ret` with `rsp = 16` and an 8-byte slot
holding 77 at `"0x10"`. -/
def pC8 : SimulatedProcess :=
  { SimulatedProcess.init "e" "pe" [("0x10", PyVal.vint 77)] with
    instructions := [("0x5", ⟨"0x5", InstructionType.RET, [], "c3"⟩)],
    registers := { Regs.init with rip := 5, rsp := 16 } }

/-- A process whose next instruction `cmp ["foo", "bar"]` raises
`ValueError` (`int("foo")`) when executed. -/
def pC10 : SimulatedProcess :=
  { SimulatedProcess.init "b" "pb" [] with
    instructions := [("0x0", ⟨"0x0", InstructionType.CMP, ["foo", "bar"], "48 83 f8 00"⟩)] }

def simC10 : ProcessSimulator :=
  ⟨[("pb", pC10)], none⟩

/-- A bridge currently attached to simulated process `"p1"`. -/
def brC2 : ProcessBridge :=
  { process_simulator := ⟨[("p1", SimulatedProcess.init "a" "p1" [])], none⟩,
    has_real_connector := false,
    real_attached := none,
    real_pid_map := [],
    current_type := some ProcessType.SIMULATED,
    current_id := some "p1" }

/-- An enabled write breakpoint at `"0xa"` with hit count 3. -/
def bpC6 : Breakpoint :=
  ⟨"0xa", "write", none, true, 3⟩

def pC6 : SimulatedProcess :=
  { SimulatedProcess.init "f" "pf" [] with breakpoints := [("0xa", bpC6)] }

/-! ### Library lemmas -/

theorem dictGet_dictSet_self {α : Type} (m : List (String × α)) (k : String) (v : α) :
    dictGet (dictSet m k v) k = some v := by
  induction m with
  | nil => simp [dictGet, dictSet]
  | cons hd tl ih =>
      obtain ⟨k', v'⟩ := hd
      by_cases h : k' = k <;> simp [dictGet, dictSet, h, ih]

theorem dictGet_dictSet_ne {α : Type} (m : List (String × α)) (k k' : String) (v : α)
    (h : k ≠ k') : dictGet (dictSet m k v) k' = dictGet m k' := by
  induction m with
  | nil => simp [dictGet, dictSet, h]
  | cons hd tl ih =>
      obtain ⟨k0, v0⟩ := hd
      by_cases h0 : k0 = k
      · subst h0; simp [dictGet, dictSet, h]
      · simp only [dictSet, if_neg h0, dictGet]
        by_cases h1 : k0 = k' <;> simp [h1, ih]

theorem parseHexList_append (xs ys : List Char) (acc : Nat) :
    parseHexList (xs ++ ys) acc =
      match parseHexList xs acc with
      | some a => parseHexList ys a
      | none => none := by
  induction xs generalizing acc with
  | nil => simp [parseHexList]
  | cons c cs ih =>
      simp only [List.cons_append, parseHexList]
      cases hexDigitVal c with
      | none => simp
      | some d => simp [ih]

theorem hexDigitVal_hexDigitChar (m : Nat) (h : m < 16) :
    hexDigitVal (hexDigitChar m) = some m := by
  interval_cases m <;> decide

theorem parseHexList_natHexAux (fuel : Nat) :
    ∀ n acc, n ≤ fuel →
      parseHexList (natHexAux fuel n) acc =
        some (acc * 16 ^ (natHexAux fuel n).length + n) := by
  induction fuel with
  | zero =>
      intro n acc hn
      interval_cases n
      simp [natHexAux, parseHexList]
  | succ f ih =>
      intro n acc hn
      by_cases h0 : n = 0
      · subst h0; simp [natHexAux, parseHexList]
      · have hdiv : n / 16 < n := Nat.div_lt_self (Nat.pos_of_ne_zero h0) (by norm_num)
        have hle : n / 16 ≤ f := by omega
        simp only [natHexAux, if_neg h0]
        rw [parseHexList_append, ih (n / 16) acc hle]
        simp only [parseHexList, hexDigitVal_hexDigitChar (n % 16) (Nat.mod_lt n (by norm_num)),
          List.length_append, List.length_cons, List.length_nil]
        congr 1
        have : 16 ^ ((natHexAux f (n / 16)).length + (0 + 1)) =
            16 ^ (natHexAux f (n / 16)).length * 16 := by ring
        rw [this]
        have hmod := Nat.div_add_mod n 16
        ring_nf
        omega

theorem parseHexList_natHex (n : Nat) :
    parseHexList (natHex n).data 0 = some n := by
  by_cases h0 : n = 0
  · subst h0; simp [natHex]; decide
  · simp only [natHex, if_neg h0]
    show parseHexList (natHexAux n n) 0 = some n
    rw [parseHexList_natHexAux n n 0 le_rfl]
    simp

theorem natHex_data_ne_nil (n : Nat) : (natHex n).data ≠ [] := by
  by_cases h0 : n = 0
  · subst h0; simp [natHex]
  · simp only [natHex, if_neg h0]
    show natHexAux n n ≠ []
    obtain ⟨f, hf⟩ : ∃ f, n = f + 1 := ⟨n - 1, by omega⟩
    rw [hf]
    simp [natHexAux, show f + 1 ≠ 0 by omega]

theorem parseHexCore_hex_data (n : Nat) :
    parseHexCore ('0' :: 'x' :: (natHex n).data) = some n := by
  obtain ⟨c, cs, hcs⟩ : ∃ c cs, (natHex n).data = c :: cs := by
    cases h : (natHex n).data with
    | nil => exact absurd h (natHex_data_ne_nil n)
    | cons c cs => exact ⟨c, cs, rfl⟩
  rw [hcs]
  show parseHexCore ('0' :: 'x' :: c :: cs) = some n
  simp only [parseHexCore, if_pos (by simp : '0' = '0' ∧ ('x' = 'x' ∨ 'x' = 'X')),
    if_neg (by simp : ¬(c :: cs = []))]
  rw [← hcs]
  exact parseHexList_natHex n

theorem runLoop_steps_le (fuel : Nat) :
    ∀ p : SimulatedProcess, (runLoop p fuel).2 ≤ fuel := by
  induction fuel with
  | zero => intro p; simp [runLoop]
  | succ f ih =>
      intro p
      by_cases hr : p.running
      · simp only [runLoop, if_pos hr]
        cases hbp : dictGet p.breakpoints (pyHex p.registers.rip) with
        | some bp =>
            by_cases hen : bp.enabled
            · by_cases hty : bp.type = "execution"
              · simp [hen, hty]
              · simp only [hen, hty, if_true, if_false]
                cases hex : execute_instruction p (pyHex p.registers.rip) with
                | none => simp [hex]
                | some r =>
                    simp only [hex]
                    exact Nat.succ_le_succ (ih _)
            · simp only [hen, if_false, Bool.false_eq_true]
              cases hex : execute_instruction p (pyHex p.registers.rip) with
              | none => simp [hex]
              | some r =>
                  simp only [hex]
                  exact Nat.succ_le_succ (ih _)
        | none =>
            cases hex : execute_instruction p (pyHex p.registers.rip) with
            | none => simp [hex]
            | some r =>
                simp only [hex]
                exact Nat.succ_le_succ (ih _)
      · simp [runLoop, hr]

theorem runLoop_not_false (fuel : Nat) :
    ∀ (p : SimulatedProcess) (b : Bool) (p' : SimulatedProcess),
      (runLoop p fuel).1 = some (b, p') → b = true := by
  induction fuel with
  | zero =>
      intro p b p' h
      simp only [runLoop] at h
      exact (Prod.mk.injEq _ _ _ _ ▸ Option.some.inj h).1.symm
  | succ f ih =>
      intro p b p' h
      by_cases hr : p.running
      · simp only [runLoop, if_pos hr] at h
        cases hbp : dictGet p.breakpoints (pyHex p.registers.rip) with
        | some bp =>
            rw [hbp] at h
            by_cases hen : bp.enabled
            · by_cases hty : bp.type = "execution"
              · simp only [hen, hty, if_true] at h
                exact ((Prod.mk.injEq _ _ _ _).mp (Option.some.inj h)).1.symm
              · simp only [hen, hty, if_true, if_false] at h
                cases hex : execute_instruction p (pyHex p.registers.rip) with
                | none => rw [hex] at h; exact absurd h (by simp)
                | some r => rw [hex] at h; exact ih _ b p' h
            · simp only [hen] at h
              cases hex : execute_instruction p (pyHex p.registers.rip) with
              | none => rw [hex] at h; exact absurd h (by simp)
              | some r => rw [hex] at h; exact ih _ b p' h
        | none =>
            rw [hbp] at h
            cases hex : execute_instruction p (pyHex p.registers.rip) with
            | none => rw [hex] at h; exact absurd h (by simp)
            | some r => rw [hex] at h; exact ih _ b p' h
      · simp only [runLoop, if_neg hr] at h
        exact ((Prod.mk.injEq _ _ _ _).mp (Option.some.inj h)).1.symm

/-- Round trip: `int(hex(i), 16) == i`, the fact the simulator relies on
when it feeds `hex(rip)` back into `int(address, 16)`. -/
theorem pyIntBase16_pyHex (i : Int) : pyIntBase16 (pyHex i) = some i := by
  by_cases hneg : i < 0
  · have hdata : (pyHex i).data = '-' :: '0' :: 'x' :: (natHex i.natAbs).data := by
      simp only [pyHex, if_pos hneg]
      rfl
    simp [pyIntBase16, hdata, parseHexCore_hex_data, abs_of_neg hneg]
  · have hdata : (pyHex i).data = '0' :: 'x' :: (natHex i.toNat).data := by
      simp only [pyHex, if_neg hneg]
      rfl
    simp [pyIntBase16, hdata, parseHexCore_hex_data]
    omega

/-! ### Claims -/

/-- Claim C5: For every simulated process table, process id and non-negative
`max_steps`, `run_until_breakpoint` executes at most `max_steps`
instructions before returning (the step counter is the only loop bound;
this holds whether or not any breakpoint is ever hit, and also on the
exceptional exit). -/
theorem c5_run_executes_at_most_max_steps
    (sim : ProcessSimulator) (pid : String) (max_steps : Nat) :
    (run_until_breakpoint sim pid max_steps).2 ≤ max_steps := by
  unfold run_until_breakpoint
  cases hp : dictGet sim.processes pid with
  | none => simp [hp]
  | some p =>
      simp only [hp]
      split
      · simpa using runLoop_steps_le max_steps _
      · simpa using runLoop_steps_le max_steps _

/-- Claim C10, counterexample: The claim "`run_until_breakpoint` returns
true for every pid present in the table" fails: `"pb"` is present in
`simC10`, but the run terminates with a raised `ValueError`
(`int("foo")` while executing `cmp ["foo", "bar"]`), modelled as `none` —
no boolean is returned at all. -/
theorem c10_counterexample :
    (dictGet simC10.processes "pb").isSome = true ∧
      (run_until_breakpoint simC10 "pb" 5).1 = none :=
  ⟨rfl, rfl⟩

/-- Claim C10, amended: Whenever `run_until_breakpoint` returns normally
(no exception escapes instruction execution), its boolean is `false`
exactly when the process id is absent from the table; so the boolean never
distinguishes "stopped at a breakpoint" from "ran out of steps". -/
theorem c10_run_bool_only_signals_missing_pid
    (sim : ProcessSimulator) (pid : String) (max_steps : Nat)
    (b : Bool) (sim' : ProcessSimulator)
    (h : (run_until_breakpoint sim pid max_steps).1 = some (b, sim')) :
    b = false ↔ dictGet sim.processes pid = none := by
  unfold run_until_breakpoint at h
  cases hp : dictGet sim.processes pid with
  | none =>
      simp only [hp] at h
      obtain ⟨hb, -⟩ := (Prod.mk.injEq _ _ _ _).mp (Option.some.inj h)
      simp [hp, ← hb]
  | some p =>
      simp only [hp] at h
      cases hr : (runLoop { p with running := true } max_steps).1 with
      | none => rw [hr] at h; exact absurd h (by simp)
      | some br =>
          rw [hr] at h
          obtain ⟨hb, -⟩ := (Prod.mk.injEq _ _ _ _).mp (Option.some.inj h)
          have hbt : br.1 = true := runLoop_not_false max_steps _ br.1 br.2 (by rw [hr])
          constructor
          · intro hb'
            rw [← hb, hbt] at hb'
            exact absurd hb' (by simp)
          · intro hnone
            exact Option.noConfusion hnone

theorem c10_witness :
    (run_until_breakpoint simC10 "missing" 5).1 = some (false, simC10) ∧
      (false = false ↔ dictGet simC10.processes "missing" = none) :=
  ⟨rfl, c10_run_bool_only_signals_missing_pid simC10 "missing" 5 false simC10 rfl⟩

/-- Claim C3: If an enabled execution breakpoint sits at the current
instruction pointer when a `run_until_breakpoint` iteration starts (the
theorem quantifies over every process state, hence over the state at the
start of any iteration), the call returns `true` without executing that
instruction: zero instructions are executed, every register — `rip`
included — and the memory are unchanged, and exactly that breakpoint's hit
count is incremented by one. -/
theorem c3_execution_breakpoint_fires_without_executing
    (sim : ProcessSimulator) (pid : String) (p : SimulatedProcess) (bp : Breakpoint)
    (max_steps : Nat)
    (hp : dictGet sim.processes pid = some p)
    (hbp : dictGet p.breakpoints (pyHex p.registers.rip) = some bp)
    (hen : bp.enabled = true)
    (hty : bp.type = "execution")
    (hms : 0 < max_steps) :
    run_until_breakpoint sim pid max_steps =
      (some (true,
        { sim with processes := dictSet sim.processes pid
                      (fire_breakpoint p (pyHex p.registers.rip) bp) }),
       0) := by
  obtain ⟨f, rfl⟩ : ∃ f, max_steps = f + 1 := ⟨max_steps - 1, by omega⟩
  unfold run_until_breakpoint
  simp only [hp]
  have hrun : ({ p with running := true } : SimulatedProcess).running = true := rfl
  simp only [runLoop, hrun, if_true]
  simp only [hbp, hen, hty, if_true]
  simp [fire_breakpoint, hen, hty]

theorem c3_witness :
    run_until_breakpoint simC3 "pc" 1000 =
      (some (true,
        { simC3 with processes := dictSet simC3.processes "pc"
                        (fire_breakpoint pC3 (pyHex pC3.registers.rip) bpC3) }),
       0) :=
  c3_execution_breakpoint_fires_without_executing simC3 "pc" pC3 bpC3 1000
    rfl rfl rfl rfl (by decide)

/-- Claim C4: The concrete spec scenario: on a process created with memory
`{"0x1000": 42}`, `write_typed("0x1000", 100, "int")` succeeds and the
address reads back 100; `undo()` succeeds and the address reads back 42;
and `scan(100, "int")` after the undo returns the empty list. -/
theorem c4_write_undo_scan_scenario :
    (write_process_memory simScenario "p1" "0x1000" (PyVal.vint 100) "int").1 = true ∧
    read_memory simScenarioW "p1" "0x1000" = some (PyVal.vint 100) ∧
    undo_memory_edit simScenarioW "p1" = some (true, simScenarioU) ∧
    (dictGet simScenarioU.processes "p1").map SimulatedProcess.memory =
      (dictGet simScenario.processes "p1").map SimulatedProcess.memory ∧
    read_memory simScenarioU "p1" "0x1000" = some (PyVal.vint 42) ∧
    scan_memory simScenarioU "p1" (PyVal.vint 100) "int" = [] :=
  ⟨rfl, rfl, rfl, rfl, rfl, rfl⟩

/-- Claim C1, code bug: After `write_typed("0x1000", 100, "int")` and a
successful `undo()`, `redo()` *succeeds but restores the pre-write
snapshot* (42), not the written value (100): `write_memory` calls
`save_memory_state` before mutating memory and never snapshots the
post-write state, so the written value is absent from the history and
undo/redo are not inverses, contradicting `redo_memory_change`'s own
documented purpose of redoing the undone change. -/
theorem c1_redo_does_not_restore_written_value :
    redo_memory_edit simScenarioU "p1" = some (true, simScenarioR) ∧
    read_memory simScenarioR "p1" "0x1000" = some (PyVal.vint 42) ∧
    ¬ read_memory simScenarioR "p1" "0x1000" = some (PyVal.vint 100) :=
  ⟨rfl, rfl, by decide⟩

/-- Claim C2, counterexample: The claim "attach returning false implies the
bridge's current target is none afterwards" fails: `brC2` is attached to
simulated process `"p1"`; attaching to the missing simulated id `"p2"`
returns `false`, yet the current target is still `("simulated", "p1")`,
not none. -/
theorem c2_counterexample :
    (attach_to_process brC2 "p2" ProcessType.SIMULATED (fun _ => false)).1 = false ∧
    (attach_to_process brC2 "p2" ProcessType.SIMULATED (fun _ => false)).2.current_id ≠ none ∧
    (attach_to_process brC2 "p2" ProcessType.SIMULATED (fun _ => false)).2.current_type
      = some ProcessType.SIMULATED ∧
    (attach_to_process brC2 "p2" ProcessType.SIMULATED (fun _ => false)).2.current_id
      = some "p1" :=
  ⟨rfl, by decide, rfl, rfl⟩

/-- Claim C2, amended: A failed attach never records the attempted target:
whenever `attach_to_process` returns `false`, `current_type` and
`current_id` are exactly what they were before the attempt.  (A previously
attached real target may have been released at the connector level during
the attempt while remaining recorded as current — the original claim's
"current target = none" guarantee does not hold.) -/
theorem c2_failed_attach_preserves_current_target
    (br : ProcessBridge) (process_id process_type : String) (realOk : Int → Bool)
    (h : (attach_to_process br process_id process_type realOk).1 = false) :
    (attach_to_process br process_id process_type realOk).2.current_type = br.current_type ∧
    (attach_to_process br process_id process_type realOk).2.current_id = br.current_id := by
  have hdet : ∀ br' : ProcessBridge,
      (connector_detach br').current_type = br'.current_type ∧
      (connector_detach br').current_id = br'.current_id := by
    intro br'
    unfold connector_detach
    cases br'.real_attached <;> simp
  have hchain : ∀ (c1 c2 : Prop) (_ : Decidable c1) (_ : Decidable c2),
      ((if c1 then if c2 then connector_detach br else br else br).current_type
          = br.current_type) ∧
      ((if c1 then if c2 then connector_detach br else br else br).current_id
          = br.current_id) := by
    intro c1 c2 i1 i2
    split
    · split
      · exact hdet br
      · exact ⟨rfl, rfl⟩
    · exact ⟨rfl, rfl⟩
  unfold attach_to_process at h ⊢
  by_cases h1 : process_type = ProcessType.SIMULATED
  · rw [if_pos h1] at h ⊢
    generalize hX : (if br.current_type = some ProcessType.REAL ∧ pyTruthyStr br.current_id = true
        then if br.has_real_connector = true then connector_detach br else br
        else br) = br1 at h ⊢
    have hcur : br1.current_type = br.current_type ∧ br1.current_id = br.current_id := by
      rw [← hX]
      exact hchain _ _ inferInstance inferInstance
    by_cases hsucc : (dictGet br1.process_simulator.processes process_id).isSome = true
    · rw [if_pos hsucc] at h
      exact absurd h (by simp)
    · rw [if_neg hsucc] at h ⊢
      exact hcur
  · rw [if_neg h1] at h ⊢
    by_cases h2 : process_type = ProcessType.REAL
    · rw [if_pos h2] at h ⊢
      by_cases hc : br.has_real_connector = true
      · rw [if_neg (fun hn => hn hc)] at h ⊢
        cases hpid : pyIntDec process_id with
        | none =>
            rw [hpid] at h
            exact ⟨rfl, rfl⟩
        | some real_pid =>
            rw [hpid] at h
            simp only [] at h ⊢
            generalize hX : (if pyTruthyStr br.current_type = true ∧ pyTruthyStr br.current_id = true
                then if br.current_type = some ProcessType.REAL ∧ br.has_real_connector = true
                  then connector_detach br else br
                else br) = br1 at h ⊢
            have hcur : br1.current_type = br.current_type ∧ br1.current_id = br.current_id := by
              rw [← hX]
              exact hchain _ _ inferInstance inferInstance
            by_cases hok : realOk real_pid = true
            · rw [if_pos hok] at h
              exact absurd h (by simp)
            · rw [if_neg hok] at h ⊢
              exact hcur
      · rw [if_pos hc] at h ⊢
        exact ⟨rfl, rfl⟩
    · rw [if_neg h2] at h ⊢
      exact ⟨rfl, rfl⟩

theorem c2_witness :
    (attach_to_process brC2 "p2" ProcessType.SIMULATED (fun _ => false)).1 = false ∧
    ((attach_to_process brC2 "p2" ProcessType.SIMULATED (fun _ => false)).2.current_type
        = brC2.current_type ∧
      (attach_to_process brC2 "p2" ProcessType.SIMULATED (fun _ => false)).2.current_id
        = brC2.current_id) :=
  ⟨rfl, c2_failed_attach_preserves_current_target brC2 "p2" ProcessType.SIMULATED
    (fun _ => false) rfl⟩

theorem save_memory_state_breakpoints (p : SimulatedProcess) :
    (save_memory_state p).breakpoints = p.breakpoints := by
  unfold save_memory_state
  dsimp only
  split <;> split <;> rfl

theorem save_memory_state_memory (p : SimulatedProcess) :
    (save_memory_state p).memory = p.memory := by
  unfold save_memory_state
  dsimp only
  split <;> split <;> rfl

/-- Claim C6: On a memory write, the breakpoint at the written address has
its hit counter incremented exactly when it is enabled and of kind
`"write"` or `"access"` (so a `"read"`-kind breakpoint is never fired by a
write), and a memory read is a pure lookup in the memory map — it
consults no breakpoint and mutates nothing. -/
theorem c6_write_breakpoints_fire_iff_write_or_access
    (p : SimulatedProcess) (address : String) (value : PyVal) (bp : Breakpoint)
    (hbp : dictGet p.breakpoints address = some bp) :
    (dictGet (write_memory_process p address value).breakpoints address =
      some (if bp.enabled ∧ (bp.type = "write" ∨ bp.type = "access")
            then { bp with hit_count := bp.hit_count + 1 } else bp)) ∧
    (bp.type = "read" →
      dictGet (write_memory_process p address value).breakpoints address = some bp) ∧
    (∀ (sim : ProcessSimulator) (pid : String), dictGet sim.processes pid = some p →
      read_memory sim pid address = dictGet p.memory address) := by
  have hsave : (save_memory_state p).breakpoints = p.breakpoints :=
    save_memory_state_breakpoints p
  have hmain : dictGet (write_memory_process p address value).breakpoints address =
      some (if bp.enabled ∧ (bp.type = "write" ∨ bp.type = "access")
            then { bp with hit_count := bp.hit_count + 1 } else bp) := by
    unfold write_memory_process check_memory_breakpoints
    dsimp only
    rw [hsave, hbp]
    simp only []
    by_cases hfire : bp.enabled = true ∧ (bp.type = "write" ∨ bp.type = "access")
    · rw [if_pos hfire, if_pos hfire]
      exact dictGet_dictSet_self p.breakpoints address _
    · rw [if_neg hfire, if_neg hfire]
      show dictGet (save_memory_state p).breakpoints address = some bp
      rw [hsave]
      exact hbp
  refine ⟨hmain, fun hread => ?_, fun sim pid hp => ?_⟩
  · rw [hmain, if_neg]
    rintro ⟨-, hor | hor⟩ <;> rw [hread] at hor <;> exact absurd hor (by decide)
  · unfold read_memory
    rw [hp]

theorem c6_witness :
    dictGet (write_memory_process pC6 "0xa" (PyVal.vint 9)).breakpoints "0xa" =
      some (if bpC6.enabled ∧ (bpC6.type = "write" ∨ bpC6.type = "access")
            then { bpC6 with hit_count := bpC6.hit_count + 1 } else bpC6) :=
  (c6_write_breakpoints_fire_iff_write_or_access pC6 "0xa" (PyVal.vint 9) bpC6 rfl).1

/-- Claim C7: Executing an `add` or `sub` instruction whose destination
operand is neither a register name nor an existing key of the memory map
leaves the memory map entirely unchanged (no cell is created, none is
modified) and leaves every register except `rip` unchanged; only the
instruction pointer advances, by the instruction's encoded length. -/
theorem c7_add_sub_to_missing_cell_creates_nothing
    (p : SimulatedProcess) (instr : Instruction) (dst src : String) (v : Int)
    (hi : dictGet p.instructions (pyHex p.registers.rip) = some instr)
    (hop : instr.opcode = InstructionType.ADD ∨ instr.opcode = InstructionType.SUB)
    (hops : instr.operands = [dst, src])
    (hdst : isRegName dst = false)
    (hmem : dictGet p.memory dst = none)
    (hsrc : resolveSrc p.registers src = some v) :
    step_instruction p =
      some (true,
        { p with registers := setReg p.registers "rip"
                                (p.registers.rip + instr_length instr) }) := by
  rcases hop with hop | hop <;>
    simp [step_instruction, execute_instruction, hi, pyIntBase16_pyHex, hop, hops,
      hdst, hmem, hsrc, two, InstructionType.MOV, InstructionType.ADD, InstructionType.SUB]

theorem c7_witness :
    dictGet pC7.instructions (pyHex pC7.registers.rip) =
      some ⟨"0x0", InstructionType.ADD, ["0x2000", "5"], "01 02"⟩ ∧
    step_instruction pC7 =
      some (true,
        { pC7 with registers := setReg pC7.registers "rip"
                                  (pC7.registers.rip +
                                    instr_length ⟨"0x0", InstructionType.ADD,
                                                  ["0x2000", "5"], "01 02"⟩) }) :=
  ⟨rfl, c7_add_sub_to_missing_cell_creates_nothing pC7
    ⟨"0x0", InstructionType.ADD, ["0x2000", "5"], "01 02"⟩ "0x2000" "5" 5
    rfl (Or.inl rfl) rfl rfl rfl rfl⟩

/-- Claim C8: Executing a `ret` instruction: when the memory map has no
entry at `hex(rsp)`, the step is a silent no-op — no error is raised and
the whole process state (instruction pointer included) is unchanged; when
the entry holds an integer `n`, the instruction pointer is set to `n` and
the stack pointer is incremented by 8. -/
theorem c8_ret_pops_or_silently_noops
    (p : SimulatedProcess) (instr : Instruction)
    (hi : dictGet p.instructions (pyHex p.registers.rip) = some instr)
    (hop : instr.opcode = InstructionType.RET) :
    (dictGet p.memory (pyHex p.registers.rsp) = none →
      step_instruction p = some (true, p)) ∧
    (∀ n : Int, dictGet p.memory (pyHex p.registers.rsp) = some (PyVal.vint n) →
      step_instruction p = some (true,
        { p with registers := setReg (setReg p.registers "rsp"
                                        (p.registers.rsp + 8)) "rip" n })) := by
  constructor
  · intro hmem
    simp [step_instruction, execute_instruction, hi, pyIntBase16_pyHex, hop, hmem,
      InstructionType.MOV, InstructionType.ADD, InstructionType.SUB, InstructionType.JMP,
      InstructionType.CMP, InstructionType.JE, InstructionType.CALL, InstructionType.RET,
      setReg]
  · intro n hmem
    simp [step_instruction, execute_instruction, hi, pyIntBase16_pyHex, hop, hmem,
      InstructionType.MOV, InstructionType.ADD, InstructionType.SUB, InstructionType.JMP,
      InstructionType.CMP, InstructionType.JE, InstructionType.CALL, InstructionType.RET]

theorem c8_witness :
    dictGet pC8.memory (pyHex pC8.registers.rsp) = some (PyVal.vint 77) ∧
    step_instruction pC8 =
      some (true,
        { pC8 with registers := setReg (setReg pC8.registers "rsp"
                                          (pC8.registers.rsp + 8)) "rip" 77 }) :=
  ⟨rfl, (c8_ret_pops_or_silently_noops pC8 ⟨"0x5", InstructionType.RET, [], "c3"⟩
    rfl rfl).2 77 rfl⟩

theorem check_memory_breakpoints_memory_history (p : SimulatedProcess) (a t : String) :
    (check_memory_breakpoints p a t).memory_history = p.memory_history := by
  unfold check_memory_breakpoints
  split
  · split <;> rfl
  · rfl

theorem check_memory_breakpoints_history_position (p : SimulatedProcess) (a t : String) :
    (check_memory_breakpoints p a t).history_position = p.history_position := by
  unfold check_memory_breakpoints
  split
  · split <;> rfl
  · rfl

theorem pyTake_length_of_nonneg {α : Type} (l : List α) (k : Int) (hk : 0 ≤ k) :
    (pyTake l k).length = min k.toNat l.length := by
  unfold pyTake
  rw [if_neg (by omega)]
  exact List.length_take _ _

/-- Lemma: `save_memory_state` (re)establishes the history invariant, both from
the freshly-initialized state (`position = -1`, empty history) and from
any state already satisfying it. -/
theorem save_memory_state_inv (p : SimulatedProcess)
    (h : (p.history_position = -1 ∧ p.memory_history = []) ∨
         (0 ≤ p.history_position ∧
           p.history_position < (p.memory_history.length : Int) ∧
           p.memory_history.length ≤ 50)) :
    0 ≤ (save_memory_state p).history_position ∧
    (save_memory_state p).history_position
      < ((save_memory_state p).memory_history.length : Int) ∧
    (save_memory_state p).memory_history.length ≤ 50 := by
  unfold save_memory_state
  dsimp only
  have hpos : -1 ≤ p.history_position := by
    rcases h with ⟨h1, -⟩ | ⟨h1, -, -⟩ <;> omega
  by_cases htr : p.history_position < (p.memory_history.length : Int) - 1
  · rw [if_pos htr]
    rcases h with ⟨h1, h2⟩ | ⟨h1, h2, h3⟩
    · rw [h1, h2] at htr
      exact absurd htr (by norm_num)
    · have hl := pyTake_length_of_nonneg p.memory_history (p.history_position + 1) (by omega)
      have hcap : ¬ ((pyTake p.memory_history (p.history_position + 1) ++ [p.memory]).length > 50) := by
        rw [List.length_append, hl]
        simp only [List.length_cons, List.length_nil]
        omega
      rw [if_neg hcap]
      dsimp only
      rw [List.length_append, hl]
      simp only [List.length_cons, List.length_nil]
      omega
  · rw [if_neg htr]
    by_cases hcap : ((p.memory_history ++ [p.memory]).length > 50)
    · rw [if_pos hcap]
      dsimp only
      rw [List.length_drop, List.length_append] at *
      simp only [List.length_cons, List.length_nil] at *
      rcases h with ⟨h1, h2⟩ | ⟨h1, h2, h3⟩
      · rw [h2] at hcap
        exact absurd hcap (by norm_num)
      · omega
    · rw [if_neg hcap]
      dsimp only
      rw [List.length_append] at *
      simp only [List.length_cons, List.length_nil] at *
      omega

/-- Every state reachable through create / write / undo / redo satisfies
the history invariant `0 ≤ cursor < len(history) ≤ 50`. -/
theorem reachable_inv (p : SimulatedProcess) (h : Reachable p) :
    0 ≤ p.history_position ∧
    p.history_position < (p.memory_history.length : Int) ∧
    p.memory_history.length ≤ 50 := by
  induction h with
  | created name pid mem =>
      exact save_memory_state_inv _ (Or.inl ⟨rfl, rfl⟩)
  | write p a v hp ih =>
      have hs := save_memory_state_inv p (Or.inr ih)
      unfold write_memory_process
      dsimp only
      rw [check_memory_breakpoints_memory_history, check_memory_breakpoints_history_position]
      exact hs
  | undo p b p' hp hu ih =>
      unfold undo_memory_change at hu
      by_cases hpos : p.history_position > 0
      · rw [if_pos hpos] at hu
        cases hidx : pyIndex p.memory_history (p.history_position - 1) with
        | none => rw [hidx] at hu; exact absurd hu (by simp)
        | some m =>
            rw [hidx] at hu
            obtain ⟨-, hp'⟩ := (Prod.mk.injEq _ _ _ _).mp (Option.some.inj hu)
            rw [← hp']
            dsimp only
            omega
      · rw [if_neg hpos] at hu
        obtain ⟨-, hp'⟩ := (Prod.mk.injEq _ _ _ _).mp (Option.some.inj hu)
        rw [← hp']
        exact ih
  | redo p b p' hp hu ih =>
      unfold redo_memory_change at hu
      by_cases hpos : p.history_position < (p.memory_history.length : Int) - 1
      · rw [if_pos hpos] at hu
        cases hidx : pyIndex p.memory_history (p.history_position + 1) with
        | none => rw [hidx] at hu; exact absurd hu (by simp)
        | some m =>
            rw [hidx] at hu
            obtain ⟨-, hp'⟩ := (Prod.mk.injEq _ _ _ _).mp (Option.some.inj hu)
            rw [← hp']
            dsimp only
            omega
      · rw [if_neg hpos] at hu
        obtain ⟨-, hp'⟩ := (Prod.mk.injEq _ _ _ _).mp (Option.some.inj hu)
        rw [← hp']
        exact ih

/-- Claim C9: On every process created through the simulator and then
subjected to any sequence of memory writes, undos and redos: the edit
history satisfies `0 ≤ cursor < len(history) ≤ 50`; `undo` succeeds
exactly when `cursor > 0`; `redo` succeeds exactly when
`cursor < len(history) - 1`; and a write while the cursor is not at the
tail truncates every entry after the cursor before appending the
pre-write snapshot. -/
theorem c9_history_invariant (p : SimulatedProcess) (hr : Reachable p) :
    (0 ≤ p.history_position ∧
      p.history_position < (p.memory_history.length : Int) ∧
      p.memory_history.length ≤ 50) ∧
    (∀ (b : Bool) (p' : SimulatedProcess), undo_memory_change p = some (b, p') →
      (b = true ↔ 0 < p.history_position)) ∧
    (∀ (b : Bool) (p' : SimulatedProcess), redo_memory_change p = some (b, p') →
      (b = true ↔ p.history_position < (p.memory_history.length : Int) - 1)) ∧
    (∀ (a : String) (v : PyVal),
      p.history_position < (p.memory_history.length : Int) - 1 →
      (write_memory_process p a v).memory_history =
        pyTake p.memory_history (p.history_position + 1) ++ [p.memory]) := by
  obtain ⟨i0, i1, i2⟩ := reachable_inv p hr
  refine ⟨⟨i0, i1, i2⟩, ?_, ?_, ?_⟩
  · intro b p' hu
    unfold undo_memory_change at hu
    by_cases hpos : p.history_position > 0
    · rw [if_pos hpos] at hu
      cases hidx : pyIndex p.memory_history (p.history_position - 1) with
      | none => rw [hidx] at hu; exact absurd hu (by simp)
      | some m =>
          rw [hidx] at hu
          obtain ⟨hb, -⟩ := (Prod.mk.injEq _ _ _ _).mp (Option.some.inj hu)
          simp [← hb, hpos]
    · rw [if_neg hpos] at hu
      obtain ⟨hb, -⟩ := (Prod.mk.injEq _ _ _ _).mp (Option.some.inj hu)
      simp [← hb]
      omega
  · intro b p' hu
    unfold redo_memory_change at hu
    by_cases hpos : p.history_position < (p.memory_history.length : Int) - 1
    · rw [if_pos hpos] at hu
      cases hidx : pyIndex p.memory_history (p.history_position + 1) with
      | none => rw [hidx] at hu; exact absurd hu (by simp)
      | some m =>
          rw [hidx] at hu
          obtain ⟨hb, -⟩ := (Prod.mk.injEq _ _ _ _).mp (Option.some.inj hu)
          simp [← hb, hpos]
    · rw [if_neg hpos] at hu
      obtain ⟨hb, -⟩ := (Prod.mk.injEq _ _ _ _).mp (Option.some.inj hu)
      simp [← hb]
      omega
  · intro a v htr
    unfold write_memory_process
    dsimp only
    rw [check_memory_breakpoints_memory_history]
    unfold save_memory_state
    dsimp only
    rw [if_pos htr]
    have hl := pyTake_length_of_nonneg p.memory_history (p.history_position + 1) (by omega)
    have hcap : ¬ ((pyTake p.memory_history (p.history_position + 1) ++ [p.memory]).length > 50) := by
      rw [List.length_append, hl]
      simp only [List.length_cons, List.length_nil]
      omega
    rw [if_neg hcap]

theorem c9_witness :
    0 ≤ (created_process "t" "p" []).history_position ∧
      (created_process "t" "p" []).history_position <
        ((created_process "t" "p" []).memory_history.length : Int) ∧
      (created_process "t" "p" []).memory_history.length ≤ 50 :=
  (c9_history_invariant (created_process "t" "p" []) (Reachable.created "t" "p" [])).1

end Xdbg
